import Mathlib

/-!
Shallow embedding of the two request handlers of the
serverless-python-rest-api-with-dynamodb repository:
`create` from src/todos/create.py and `update` from src/todos/update.py.

Modelling conventions:
* JSON / Python values are the inductive `JVal`.  DynamoDB returns numbers
  as `decimal.Decimal`; we mirror that with a separate constructor
  `JVal.dec` so that the behaviour of `json.dumps` (which rejects
  `Decimal` without a custom encoder) is captured.  Rational numbers stand
  in for Python ints, floats and Decimals; the textual rendering of a
  number (`ratStr`) and of a uuid (`uuidRender`) are abstracted to simple
  injective encodings, since no handler behaviour depends on the exact
  digit strings.
* The request body is a string in the source; the handlers interact with
  it only through `json.loads`, so the embedding carries the body as
  `BodyStr`: either `malformed` (any string `json.loads` rejects) or
  `wellFormed v` (a string parsing to the value `v`).
* Nondeterminism (wall clock `time.time()`, `uuid.uuid1()`) is made
  explicit as a `World` threaded through the handlers; `uuid.uuid1()` is a
  time-ordered unique identifier, modelled as an injective function of a
  generator counter that each call advances.
* Exceptions are the `Except PyErr` monad; an error return models the
  Python invocation aborting, with no store write having happened.
-/

/-- JSON / Python runtime values flowing through the handlers. -/
inductive JVal where
  | s (v : String)
  | n (v : ℚ)
  | dec (v : ℚ)
  | b (v : Bool)
  | null
  | arr (vs : List JVal)
  | obj (fs : List (String × JVal))
deriving BEq, Repr

/-- Python exceptions the handlers can raise. -/
inductive PyErr where
  | exception (msg : String)
  | typeError
  | keyError (k : String)
  | valueError
deriving BEq, Repr

/-- A request body string, abstracted by its `json.loads` parse result. -/
inductive BodyStr where
  | malformed
  | wellFormed (v : JVal)

/-- The trigger event: `event['body']` and `event['pathParameters']`
(absent path parameters model API Gateway passing `None`). -/
structure Event where
  body : BodyStr
  pathParameters : Option (List (String × String))

/-- The handler response object: `{"statusCode": ..., "body": ...}`. -/
structure Response where
  statusCode : Nat
  body : String
deriving Repr

/-- A stored record: DynamoDB attribute name to value. -/
abbrev Item := List (String × JVal)

/-- The Item Store table: records keyed by their primary key `id`. -/
abbrev Store := List (String × Item)

/-- Ambient nondeterminism: the wall clock (seconds since epoch, the
result of `time.time()`) and the `uuid.uuid1()` generator state. -/
structure World where
  now : ℚ
  uuidCtr : ℕ

/-- Model of `json.loads`: raises (`ValueError`) on a malformed body,
returns the parsed value otherwise. -/
def json_loads (bs : BodyStr) : Except PyErr JVal :=
  match bs with
  | .malformed => .error .valueError
  | .wellFormed v => .ok v

/-- Substring test, modelling the Python `in` operator on strings. -/
def strContains (hay pat : String) : Bool :=
  (hay.splitOn pat).length != 1

/-- Membership of a key in an association list, modelling `key in dict`. -/
def hasKey (fs : List (String × JVal)) (k : String) : Bool :=
  fs.any (fun p => p.1 == k)

/-- Model of the Python expression `key in data` for the `JVal` carried by
the body: key lookup on dicts, element equality on lists, substring on
strings, `TypeError` on the other types. -/
def py_contains (key : String) (v : JVal) : Except PyErr Bool :=
  match v with
  | .obj fs => .ok (hasKey fs key)
  | .arr vs => .ok (vs.any (fun x => x == JVal.s key))
  | .s t => .ok (strContains t key)
  | _ => .error .typeError

/-- Model of the Python subscript `data[key]`: dict lookup (raising
`KeyError` when absent), `TypeError` on every non-dict value. -/
def py_getItem (v : JVal) (key : String) : Except PyErr JVal :=
  match v with
  | .obj fs =>
    match fs.lookup key with
    | some x => .ok x
    | none => .error (.keyError key)
  | _ => .error .typeError

/-- Rendering of a rational number as a string.  Stands in for Python
number formatting (`str(time.time())`, the digits emitted by
`json.dumps`); the handlers never inspect the digits, so any injective
non-empty encoding is faithful. -/
def ratStr (q : ℚ) : String :=
  toString q.num ++ "/" ++ toString q.den

/-- Model of Python `int()` applied to a rational: truncation toward
zero. -/
def py_int (q : ℚ) : ℤ :=
  Int.tdiv q.num (q.den : ℤ)

/-- Model of `str(uuid.uuid1())`: uuid1 is a time-ordered unique
identifier; its textual form is abstracted to an injective function of
the generator counter. -/
def uuidRender (c : ℕ) : String :=
  String.mk (List.replicate (c + 1) 'u')

/-- Drawing a fresh uuid advances the generator state. -/
def uuid1_str (w : World) : String × World :=
  (uuidRender w.uuidCtr, { w with uuidCtr := w.uuidCtr + 1 })

/-- Overwrite a field of a record (DynamoDB `SET`), appending it when it
is not yet present. -/
def setAttr (it : Item) (k : String) (v : JVal) : Item :=
  match it with
  | [] => [(k, v)]
  | (k1, v1) :: rest =>
    if k1 == k then (k, v) :: rest else (k1, v1) :: setAttr rest k v

/-- Insert-or-replace a record in the table under key `k`. -/
def putStore (st : Store) (k : String) (it : Item) : Store :=
  match st with
  | [] => [(k, it)]
  | (k1, it1) :: rest =>
    if k1 == k then (k, it) :: rest else (k1, it1) :: putStore rest k it

/-- Model of `table.put_item(Item=item)`: an unconditional insert keyed by
the item's `id` attribute (which must be a string for the configured
key schema). -/
def put_item (st : Store) (it : Item) : Except PyErr Store :=
  match it.lookup "id" with
  | some (JVal.s k) => .ok (putStore st k it)
  | _ => .error .typeError

/-- Model of the `table.update_item` call of update.py: the update
expression `SET #todo_text = :text, checked = :checked,
updatedAt = :updatedAt` against key `id = k`, with upsert semantics when
no record with that key exists, returning the `ALL_NEW` attributes. -/
def update_item (st : Store) (k : String) (text checked updAt : JVal) :
    Item × Store :=
  match st.lookup k with
  | some it =>
    let it1 := setAttr (setAttr (setAttr it "text" text) "checked" checked)
      "updatedAt" updAt
    (it1, putStore st k it1)
  | none =>
    let it1 : Item :=
      [("id", JVal.s k), ("text", text), ("checked", checked),
       ("updatedAt", updAt)]
    (it1, putStore st k it1)

mutual
/-- Boto3 deserialization applied to attributes read back from the store:
every DynamoDB number surfaces in Python as a `Decimal`. -/
def numsToDec : JVal → JVal
  | .s v => .s v
  | .n q => .dec q
  | .dec q => .dec q
  | .b v => .b v
  | .null => .null
  | .arr vs => .arr (numsToDec_arr vs)
  | .obj fs => .obj (numsToDec_obj fs)

/-- Pointwise `numsToDec` over array elements. -/
def numsToDec_arr : List JVal → List JVal
  | [] => []
  | v :: vs => numsToDec v :: numsToDec_arr vs

/-- Pointwise `numsToDec` over object field values. -/
def numsToDec_obj : List (String × JVal) → List (String × JVal)
  | [] => []
  | (k, v) :: fs => (k, numsToDec v) :: numsToDec_obj fs
end

mutual
/-- Modelled from the spec: todos/decimalencoder.DecimalEncoder (the
module `todos.decimalencoder` imported by update.py is not part of the
given sources).  Per the spec, numeric fields read from the store are
re-encoded to be representable in the response serialization format:
every `Decimal` becomes a plain JSON number. -/
def decimalEncode : JVal → JVal
  | .s v => .s v
  | .n q => .n q
  | .dec q => .n q
  | .b v => .b v
  | .null => .null
  | .arr vs => .arr (decimalEncode_arr vs)
  | .obj fs => .obj (decimalEncode_obj fs)

/-- Pointwise `decimalEncode` over array elements. -/
def decimalEncode_arr : List JVal → List JVal
  | [] => []
  | v :: vs => decimalEncode v :: decimalEncode_arr vs

/-- Pointwise `decimalEncode` over object field values. -/
def decimalEncode_obj : List (String × JVal) → List (String × JVal)
  | [] => []
  | (k, v) :: fs => (k, decimalEncode v) :: decimalEncode_obj fs
end

mutual
/-- A value is free of `Decimal`s (`json.dumps` without a custom encoder
succeeds exactly on these; `json.loads` can only produce these). -/
def decFree : JVal → Bool
  | .s _ => true
  | .n _ => true
  | .dec _ => false
  | .b _ => true
  | .null => true
  | .arr vs => decFree_arr vs
  | .obj fs => decFree_obj fs

/-- Conjunction of `decFree` over array elements. -/
def decFree_arr : List JVal → Bool
  | [] => true
  | v :: vs => decFree v && decFree_arr vs

/-- Conjunction of `decFree` over object field values. -/
def decFree_obj : List (String × JVal) → Bool
  | [] => true
  | (_, v) :: fs => decFree v && decFree_obj fs
end

/-- Escape a character for inclusion in a JSON string literal. -/
def escChar (c : Char) : String :=
  if c = '"' then "\\\"" else if c = '\\' then "\\\\" else String.singleton c

/-- Serialize a string as a JSON string literal. -/
def jstr (v : String) : String :=
  "\"" ++ String.join (v.data.map escChar) ++ "\""

/-- Comma-join serialized parts. -/
def joinComma : List String → String
  | [] => ""
  | [x] => x
  | x :: xs => x ++ "," ++ joinComma xs

mutual
/-- Model of `json.dumps` with the default encoder: raises `TypeError` on
a `Decimal`, serializes everything else. -/
def json_dumps : JVal → Except PyErr String
  | .s v => .ok (jstr v)
  | .n q => .ok (ratStr q)
  | .dec _ => .error .typeError
  | .b true => .ok "true"
  | .b false => .ok "false"
  | .null => .ok "null"
  | .arr vs =>
    match json_dumps_arr vs with
    | .error e => .error e
    | .ok parts => .ok ("[" ++ joinComma parts ++ "]")
  | .obj fs =>
    match json_dumps_obj fs with
    | .error e => .error e
    | .ok parts => .ok ("\x7b" ++ joinComma parts ++ "\x7d")

/-- Serialize the elements of a JSON array. -/
def json_dumps_arr : List JVal → Except PyErr (List String)
  | [] => .ok []
  | v :: vs =>
    match json_dumps v with
    | .error e => .error e
    | .ok s =>
      match json_dumps_arr vs with
      | .error e => .error e
      | .ok ss => .ok (s :: ss)

/-- Serialize the fields of a JSON object. -/
def json_dumps_obj : List (String × JVal) → Except PyErr (List String)
  | [] => .ok []
  | (k, v) :: fs =>
    match json_dumps v with
    | .error e => .error e
    | .ok s =>
      match json_dumps_obj fs with
      | .error e => .error e
      | .ok ss => .ok ((jstr k ++ ":" ++ s) :: ss)
end

/-- Model of `json.dumps(v, cls=decimalencoder.DecimalEncoder)`: the
custom encoder re-encodes every `Decimal` into a JSON number before
serialization. -/
def json_dumps_decimal (v : JVal) : Except PyErr String :=
  json_dumps (decimalEncode v)

/-- The item dict literal of create.py lines 26-32: a fresh id, the
request text, `checked` forced to false, and both timestamps set to the
same string. -/
def createItem (uid : String) (text : JVal) (timestamp : String) : Item :=
  [("id", JVal.s uid), ("text", text), ("checked", JVal.b false),
   ("createdAt", JVal.s timestamp), ("updatedAt", JVal.s timestamp)]

/-- The create handler, src/todos/create.py lines 16-43, translated
step by step: parse the body, validate presence of `text`, take the
timestamp, build the new item (drawing the uuid, then reading
`data['text']`, in the evaluation order of the dict literal), write it
with `put_item`, and return the 200 response with the serialized item. -/
def create (event : Event) (st : Store) (w : World) :
    Except PyErr (Response × Store × World) :=
  match json_loads event.body with
  | .error e => .error e
  | .ok data =>
    match py_contains "text" data with
    | .error e => .error e
    | .ok false => .error (.exception "Couldn\x27t create the todo item.")
    | .ok true =>
      let timestamp := ratStr w.now
      let (uid, w1) := uuid1_str w
      match py_getItem data "text" with
      | .error e => .error e
      | .ok text =>
        let item : Item := createItem uid text timestamp
        match put_item st item with
        | .error e => .error e
        | .ok st1 =>
          match json_dumps (JVal.obj item) with
          | .error e => .error e
          | .ok bodyStr =>
            .ok ({ statusCode := 200, body := bodyStr }, st1, w1)

/-- The update handler, src/todos/update.py lines 16-53, translated step
by step: parse the body, validate presence of `text` and `checked`, take
the millisecond timestamp, evaluate the `update_item` arguments in source
order (`Key` from the path parameter, then `:text`, `:checked`), perform
the update, and serialize the `ALL_NEW` attributes (surfacing from boto3
with numbers as Decimals) through the Decimal-aware encoder. -/
def update (event : Event) (st : Store) (w : World) :
    Except PyErr (Response × Store × World) :=
  match json_loads event.body with
  | .error e => .error e
  | .ok data =>
    match py_contains "text" data with
    | .error e => .error e
    | .ok hasText =>
      match py_contains "checked" data with
      | .error e => .error e
      | .ok hasChecked =>
        if !hasText || !hasChecked then
          .error (.exception "Couldn\x27t update the todo item.")
        else
          let timestamp : ℤ := py_int (w.now * 1000)
          match event.pathParameters with
          | none => .error .typeError
          | some ps =>
            match ps.lookup "id" with
            | none => .error (.keyError "id")
            | some tid =>
              match py_getItem data "text" with
              | .error e => .error e
              | .ok text =>
                match py_getItem data "checked" with
                | .error e => .error e
                | .ok checked =>
                  let (attrs, st1) :=
                    update_item st tid text checked (JVal.n timestamp)
                  match json_dumps_decimal (numsToDec (JVal.obj attrs)) with
                  | .error e => .error e
                  | .ok bodyStr =>
                    .ok ({ statusCode := 200, body := bodyStr }, st1, w)

/-- Numeric reading of a stored attribute value, for comparing `updatedAt`
values numerically. -/
def numVal : JVal → Option ℚ
  | .n q => some q
  | .dec q => some q
  | _ => none

/-- Concrete fixture: a well-formed request carrying `text` and `checked`
and the path parameter `id = X`. -/
def evOkW : Event :=
  { body := BodyStr.wellFormed
      (JVal.obj [("text", JVal.s "hi"), ("checked", JVal.b true)]),
    pathParameters := some [("id", "X")] }

/-- Concrete fixture: a request whose body object carries neither `text`
nor `checked`. -/
def evBadW : Event :=
  { body := BodyStr.wellFormed (JVal.obj [("foo", JVal.n 1)]),
    pathParameters := none }

/-- Concrete fixture: a request whose body is valid JSON but not an
object. -/
def evStrW : Event :=
  { body := BodyStr.wellFormed (JVal.s "no json object"),
    pathParameters := none }

/-- Concrete fixture: clock at 2 seconds, fresh uuid generator. -/
def wW : World := { now := 2, uuidCtr := 0 }

/-- Concrete fixture: a store holding one item under key `X` whose
`updatedAt` was written by a previous millisecond-resolution update. -/
def stW : Store :=
  [("X", [("id", JVal.s "X"), ("text", JVal.s "old"),
          ("checked", JVal.b false), ("updatedAt", JVal.n 3)])]

/-- Concrete fixture for the same-millisecond counterexample: the wall
clock reads 5 ms past the epoch. -/
def cexWorld : World := { now := 1/200, uuidCtr := 0 }

/-- Concrete fixture: a store whose item under `X` carries the numeric
`updatedAt` value 5. -/
def cexStore : Store :=
  [("X", [("id", JVal.s "X"), ("text", JVal.s "a"),
          ("checked", JVal.b false), ("updatedAt", JVal.n 5)])]

/-- Concrete fixture: a valid update request against item `X`. -/
def cexEvent : Event :=
  { body := BodyStr.wellFormed
      (JVal.obj [("text", JVal.s "b"), ("checked", JVal.b true)]),
    pathParameters := some [("id", "X")] }

/-- Concrete fixture: the (successful) result of running create on the
valid request against the empty store. -/
def createOutW : Response × Store × World :=
  match create evOkW [] wW with
  | .ok x => x
  | .error _ => ({ statusCode := 0, body := "" }, [], wW)

/-- Concrete fixture: the (successful) result of running update on the
valid request against the one-item store. -/
def updateOutW : Response × Store × World :=
  match update evOkW stW wW with
  | .ok x => x
  | .error _ => ({ statusCode := 0, body := "" }, [], wW)

/-- A key an association-list lookup finds is reported present by
`hasKey`. -/
theorem hasKey_of_lookup {fs : List (String × JVal)} {k : String} {v : JVal}
    (h : fs.lookup k = some v) : hasKey fs k = true := by
  induction fs with
  | nil => simp [List.lookup] at h
  | cons p rest ih =>
    obtain ⟨k1, v1⟩ := p
    by_cases hk : k = k1
    · subst hk
      simp [hasKey]
    · have hbe : (k == k1) = false := beq_eq_false_iff_ne.mpr hk
      simp only [List.lookup, hbe] at h
      have h2 := ih h
      simp [hasKey] at h2 ⊢
      exact Or.inr h2

/-- Replacing under key `k` makes `k` map to the new value. -/
theorem lookup_setAttr_self (it : Item) (k : String) (v : JVal) :
    (setAttr it k v).lookup k = some v := by
  induction it with
  | nil => simp [setAttr, List.lookup]
  | cons p rest ih =>
    obtain ⟨k1, v1⟩ := p
    by_cases hk : k1 = k
    · subst hk
      simp [setAttr, List.lookup]
    · have hbe : (k == k1) = false := beq_eq_false_iff_ne.mpr (Ne.symm hk)
      simp [setAttr, hk, List.lookup, hbe, ih]

/-- Replacing under key `k` leaves every other key unchanged. -/
theorem lookup_setAttr_ne (it : Item) {k k1 : String} (v : JVal)
    (h : k1 ≠ k) : (setAttr it k v).lookup k1 = it.lookup k1 := by
  have hbe : (k1 == k) = false := beq_eq_false_iff_ne.mpr h
  induction it with
  | nil => simp [setAttr, List.lookup, hbe]
  | cons p rest ih =>
    obtain ⟨k2, v2⟩ := p
    by_cases hk : k2 = k
    · subst hk
      simp [setAttr, List.lookup, hbe]
    · simp [setAttr, hk, List.lookup, ih]

/-- Writing a record under key `k` makes `k` map to that record. -/
theorem lookup_putStore_self (st : Store) (k : String) (it : Item) :
    (putStore st k it).lookup k = some it := by
  induction st with
  | nil => simp [putStore, List.lookup]
  | cons p rest ih =>
    obtain ⟨k1, it1⟩ := p
    by_cases hk : k1 = k
    · subst hk
      simp [putStore, List.lookup]
    · have hbe : (k == k1) = false := beq_eq_false_iff_ne.mpr (Ne.symm hk)
      simp [putStore, hk, List.lookup, hbe, ih]

/-- Writing a record under key `k` leaves every other key unchanged. -/
theorem lookup_putStore_ne (st : Store) {k k1 : String} (it : Item)
    (h : k1 ≠ k) : (putStore st k it).lookup k1 = st.lookup k1 := by
  have hbe : (k1 == k) = false := beq_eq_false_iff_ne.mpr h
  induction st with
  | nil => simp [putStore, List.lookup, hbe]
  | cons p rest ih =>
    obtain ⟨k2, it2⟩ := p
    by_cases hk : k2 = k
    · subst hk
      simp [putStore, List.lookup, hbe]
    · simp [putStore, hk, List.lookup, ih]

/-- The abstract uuid rendering is injective: distinct generator states
give distinct identifier strings. -/
theorem uuidRender_inj {a b : ℕ} (h : uuidRender a = uuidRender b) :
    a = b := by
  have h2 := congrArg String.length h
  simp [uuidRender, String.length_mk, List.length_replicate] at h2
  exact h2

/-- Generated identifier strings are never empty. -/
theorem uuidRender_ne_empty (c : ℕ) : uuidRender c ≠ "" := by
  intro h
  have h2 := congrArg String.length h
  simp [uuidRender, String.length_mk, List.length_replicate,
    String.length_empty] at h2

/-- Rendered timestamps are never empty. -/
theorem ratStr_ne_empty (q : ℚ) : ratStr q ≠ "" := by
  intro h
  have h2 := congrArg String.length h
  rw [ratStr, String.length_append, String.length_append,
    String.length_empty] at h2
  have h3 : String.length "/" = 1 := rfl
  omega

mutual
/-- The default `json.dumps` succeeds on every Decimal-free value. -/
theorem json_dumps_ok_of_decFree :
    ∀ v : JVal, decFree v = true → ∃ s, json_dumps v = Except.ok s
  | .s _, _ => ⟨_, rfl⟩
  | .n _, _ => ⟨_, rfl⟩
  | .dec _, h => by simp [decFree] at h
  | .b true, _ => ⟨_, rfl⟩
  | .b false, _ => ⟨_, rfl⟩
  | .null, _ => ⟨_, rfl⟩
  | .arr vs, h => by
    obtain ⟨ss, hss⟩ :=
      json_dumps_arr_ok_of_decFree vs (by simpa [decFree] using h)
    exact ⟨"[" ++ joinComma ss ++ "]", by simp [json_dumps, hss]⟩
  | .obj fs, h => by
    obtain ⟨ss, hss⟩ :=
      json_dumps_obj_ok_of_decFree fs (by simpa [decFree] using h)
    exact ⟨"\x7b" ++ joinComma ss ++ "\x7d", by simp [json_dumps, hss]⟩

/-- Array companion of `json_dumps_ok_of_decFree`. -/
theorem json_dumps_arr_ok_of_decFree :
    ∀ vs : List JVal, decFree_arr vs = true →
      ∃ ss, json_dumps_arr vs = Except.ok ss
  | [], _ => ⟨[], rfl⟩
  | v :: vs, h => by
    have h2 : decFree v = true ∧ decFree_arr vs = true := by
      simpa [decFree_arr, Bool.and_eq_true] using h
    obtain ⟨s, hs⟩ := json_dumps_ok_of_decFree v h2.1
    obtain ⟨ss, hss⟩ := json_dumps_arr_ok_of_decFree vs h2.2
    exact ⟨s :: ss, by simp [json_dumps_arr, hs, hss]⟩

/-- Object companion of `json_dumps_ok_of_decFree`. -/
theorem json_dumps_obj_ok_of_decFree :
    ∀ fs : List (String × JVal), decFree_obj fs = true →
      ∃ ss, json_dumps_obj fs = Except.ok ss
  | [], _ => ⟨[], rfl⟩
  | (k, v) :: fs, h => by
    have h2 : decFree v = true ∧ decFree_obj fs = true := by
      simpa [decFree_obj, Bool.and_eq_true] using h
    obtain ⟨s, hs⟩ := json_dumps_ok_of_decFree v h2.1
    obtain ⟨ss, hss⟩ := json_dumps_obj_ok_of_decFree fs h2.2
    exact ⟨(jstr k ++ ":" ++ s) :: ss, by simp [json_dumps_obj, hs, hss]⟩
end

mutual
/-- The Decimal-aware encoder leaves no Decimal behind. -/
theorem decFree_decimalEncode :
    ∀ v : JVal, decFree (decimalEncode v) = true
  | .s _ => rfl
  | .n _ => rfl
  | .dec _ => rfl
  | .b _ => rfl
  | .null => rfl
  | .arr vs => by
    simpa [decimalEncode, decFree] using decFree_arr_decimalEncode vs
  | .obj fs => by
    simpa [decimalEncode, decFree] using decFree_obj_decimalEncode fs

/-- Array companion of `decFree_decimalEncode`. -/
theorem decFree_arr_decimalEncode :
    ∀ vs : List JVal, decFree_arr (decimalEncode_arr vs) = true
  | [] => rfl
  | v :: vs => by
    simp [decimalEncode_arr, decFree_arr, decFree_decimalEncode v,
      decFree_arr_decimalEncode vs]

/-- Object companion of `decFree_decimalEncode`. -/
theorem decFree_obj_decimalEncode :
    ∀ fs : List (String × JVal), decFree_obj (decimalEncode_obj fs) = true
  | [] => rfl
  | (k, v) :: fs => by
    simp [decimalEncode_obj, decFree_obj, decFree_decimalEncode v,
      decFree_obj_decimalEncode fs]
end

/-- The Decimal-aware `json.dumps` succeeds on every value. -/
theorem json_dumps_decimal_ok (v : JVal) :
    ∃ s, json_dumps_decimal v = Except.ok s := by
  obtain ⟨s, hs⟩ := json_dumps_ok_of_decFree _ (decFree_decimalEncode v)
  exact ⟨s, by simpa [json_dumps_decimal] using hs⟩

/-- Characterization of a successful create: when the body parses to a
dict carrying a (Decimal-free) `text` value, the handler draws a fresh
uuid, builds the five-field item, writes it, and answers 200 with the
serialized item. -/
theorem create_spec (ev : Event) (st : Store) (w : World)
    (fs : List (String × JVal)) (txt : JVal)
    (hb : json_loads ev.body = Except.ok (JVal.obj fs))
    (ht : fs.lookup "text" = some txt)
    (hd : decFree txt = true) :
    ∃ bs,
      json_dumps (JVal.obj
        (createItem (uuidRender w.uuidCtr) txt (ratStr w.now))) =
        Except.ok bs ∧
      create ev st w = Except.ok
        ({ statusCode := 200, body := bs },
         putStore st (uuidRender w.uuidCtr)
           (createItem (uuidRender w.uuidCtr) txt (ratStr w.now)),
         { w with uuidCtr := w.uuidCtr + 1 }) := by
  have hk : hasKey fs "text" = true := hasKey_of_lookup ht
  have hdf : decFree (JVal.obj
      (createItem (uuidRender w.uuidCtr) txt (ratStr w.now))) = true := by
    simp [decFree, decFree_obj, createItem, hd]
  obtain ⟨bs, hbs⟩ := json_dumps_ok_of_decFree _ hdf
  refine ⟨bs, hbs, ?_⟩
  simp only [createItem] at hbs
  simp [create, hb, py_contains, hk, py_getItem, ht, uuid1_str, put_item,
    createItem, List.lookup, hbs]

/-- Characterization of a successful update: when the body parses to a
dict carrying `text` and `checked` and the path parameter dict carries
`id`, the handler performs the SET against that key (upserting) and
answers 200 with the Decimal-re-encoded `ALL_NEW` attributes. -/
theorem update_spec (ev : Event) (st : Store) (w : World)
    (fs : List (String × JVal)) (txt chk : JVal)
    (ps : List (String × String)) (tid : String)
    (hb : json_loads ev.body = Except.ok (JVal.obj fs))
    (ht : fs.lookup "text" = some txt)
    (hc : fs.lookup "checked" = some chk)
    (hp : ev.pathParameters = some ps)
    (hid : ps.lookup "id" = some tid) :
    ∃ bs,
      json_dumps_decimal (numsToDec (JVal.obj
        (update_item st tid txt chk
          (JVal.n (py_int (w.now * 1000)))).1)) = Except.ok bs ∧
      update ev st w = Except.ok
        ({ statusCode := 200, body := bs },
         (update_item st tid txt chk (JVal.n (py_int (w.now * 1000)))).2,
         w) := by
  have hkt : hasKey fs "text" = true := hasKey_of_lookup ht
  have hkc : hasKey fs "checked" = true := hasKey_of_lookup hc
  obtain ⟨bs, hbs⟩ := json_dumps_decimal_ok (numsToDec (JVal.obj
    (update_item st tid txt chk (JVal.n (py_int (w.now * 1000)))).1))
  refine ⟨bs, hbs, ?_⟩
  simp [update, hb, py_contains, hkt, hkc, py_getItem, ht, hc, hp, hid,
    hbs]

/-- The table entry under the updated key is exactly the `ALL_NEW`
attribute set returned by `update_item`. -/
theorem lookup_update_item (st : Store) (k : String) (t c u : JVal) :
    ((update_item st k t c u).2).lookup k =
      some (update_item st k t c u).1 := by
  unfold update_item
  cases h : st.lookup k <;> simp [lookup_putStore_self]

/-- After `update_item`, the `updatedAt` attribute holds the written
value. -/
theorem update_item_updatedAt (st : Store) (k : String) (t c u : JVal) :
    ((update_item st k t c u).1).lookup "updatedAt" = some u := by
  unfold update_item
  cases h : st.lookup k
  · rfl
  · simp [lookup_setAttr_self]

/-- After `update_item`, the `text` attribute holds the written value. -/
theorem update_item_text (st : Store) (k : String) (t c u : JVal) :
    ((update_item st k t c u).1).lookup "text" = some t := by
  unfold update_item
  cases h : st.lookup k
  · rfl
  · simp only []
    rw [lookup_setAttr_ne _ _ (by decide),
      lookup_setAttr_ne _ _ (by decide), lookup_setAttr_self]

/-- After `update_item`, the `checked` attribute holds the written
value. -/
theorem update_item_checked (st : Store) (k : String) (t c u : JVal) :
    ((update_item st k t c u).1).lookup "checked" = some c := by
  unfold update_item
  cases h : st.lookup k
  · rfl
  · simp only []
    rw [lookup_setAttr_ne _ _ (by decide), lookup_setAttr_self]

/-- C1: for every create request whose body deserializes to an object
containing a `text` field, the create handler returns statusCode 200 and
a body serializing an item whose `text` equals the input text, whose
`checked` is false, and whose `id`, `createdAt` and `updatedAt` are
present and non-empty. -/
theorem C1_create_valid_request_response (ev : Event) (st : Store)
    (w : World) (fs : List (String × JVal)) (txt : JVal)
    (hb : json_loads ev.body = Except.ok (JVal.obj fs))
    (ht : fs.lookup "text" = some txt)
    (hd : decFree txt = true) :
    ∃ r st1 w1, create ev st w = Except.ok (r, st1, w1) ∧
      r.statusCode = 200 ∧
      ∃ it : Item, json_dumps (JVal.obj it) = Except.ok r.body ∧
        it.lookup "text" = some txt ∧
        it.lookup "checked" = some (JVal.b false) ∧
        (∃ i, it.lookup "id" = some (JVal.s i) ∧ i ≠ "") ∧
        (∃ c, it.lookup "createdAt" = some (JVal.s c) ∧ c ≠ "") ∧
        (∃ u, it.lookup "updatedAt" = some (JVal.s u) ∧ u ≠ "") := by
  obtain ⟨bs, hbs, hcr⟩ := create_spec ev st w fs txt hb ht hd
  refine ⟨_, _, _, hcr, rfl,
    createItem (uuidRender w.uuidCtr) txt (ratStr w.now), hbs,
    rfl, rfl,
    ⟨uuidRender w.uuidCtr, rfl, uuidRender_ne_empty _⟩,
    ⟨ratStr w.now, rfl, ratStr_ne_empty _⟩,
    ⟨ratStr w.now, rfl, ratStr_ne_empty _⟩⟩

/-- Witness for C1 at a concrete request. -/
theorem C1_witness :
    json_loads evOkW.body = Except.ok
      (JVal.obj [("text", JVal.s "hi"), ("checked", JVal.b true)]) ∧
    List.lookup "text" [("text", JVal.s "hi"), ("checked", JVal.b true)] =
      some (JVal.s "hi") ∧
    decFree (JVal.s "hi") = true ∧
    (∃ r st1 w1, create evOkW [] wW = Except.ok (r, st1, w1) ∧
      r.statusCode = 200 ∧
      ∃ it : Item, json_dumps (JVal.obj it) = Except.ok r.body ∧
        it.lookup "text" = some (JVal.s "hi") ∧
        it.lookup "checked" = some (JVal.b false) ∧
        (∃ i, it.lookup "id" = some (JVal.s i) ∧ i ≠ "") ∧
        (∃ c, it.lookup "createdAt" = some (JVal.s c) ∧ c ≠ "") ∧
        (∃ u, it.lookup "updatedAt" = some (JVal.s u) ∧ u ≠ "")) :=
  ⟨rfl, rfl, rfl,
   C1_create_valid_request_response evOkW [] wW _ _ rfl rfl rfl⟩

/-- C2: for every update request whose body deserializes to an object
missing `text` or missing `checked`, the update handler raises the
validation error, so no store write occurs (no updated state is
produced). -/
theorem C2_update_missing_field_raises (ev : Event) (st : Store)
    (w : World) (fs : List (String × JVal))
    (hb : json_loads ev.body = Except.ok (JVal.obj fs))
    (hm : hasKey fs "text" = false ∨ hasKey fs "checked" = false) :
    update ev st w =
      Except.error (PyErr.exception "Couldn\x27t update the todo item.") := by
  rcases hm with hm | hm
  · simp [update, hb, py_contains, hm]
  · simp [update, hb, py_contains, hm]

/-- Witness for C2 at a concrete request. -/
theorem C2_witness :
    json_loads evBadW.body = Except.ok (JVal.obj [("foo", JVal.n 1)]) ∧
    hasKey [("foo", JVal.n 1)] "text" = false ∧
    update evBadW [] wW =
      Except.error (PyErr.exception "Couldn\x27t update the todo item.") :=
  ⟨rfl, rfl,
   C2_update_missing_field_raises evBadW [] wW _ rfl (Or.inl rfl)⟩

/-- C3: for every create request whose body deserializes to an object not
containing `text`, the create handler raises the validation error, so no
store write occurs (no updated state is produced). -/
theorem C3_create_missing_text_raises (ev : Event) (st : Store)
    (w : World) (fs : List (String × JVal))
    (hb : json_loads ev.body = Except.ok (JVal.obj fs))
    (hm : hasKey fs "text" = false) :
    create ev st w =
      Except.error (PyErr.exception "Couldn\x27t create the todo item.") := by
  simp [create, hb, py_contains, hm]

/-- Witness for C3 at a concrete request. -/
theorem C3_witness :
    json_loads evBadW.body = Except.ok (JVal.obj [("foo", JVal.n 1)]) ∧
    hasKey [("foo", JVal.n 1)] "text" = false ∧
    create evBadW [] wW =
      Except.error (PyErr.exception "Couldn\x27t create the todo item.") :=
  ⟨rfl, rfl, C3_create_missing_text_raises evBadW [] wW _ rfl rfl⟩

/-- C4 (amended): for every update request whose body contains `text` and
`checked` and whose path parameter `id` names an existing item, the
response has statusCode 200, the resulting record's `text` and `checked`
equal the input values, its `updatedAt` equals the current wall-clock
time in milliseconds (truncated to an integer), and it is strictly
greater, numerically, than the stored `updatedAt` whenever that
millisecond clock value strictly exceeds the stored value — the strict
growth asserted by the original claim holds only under this
clock-advance proviso, since an update in the same millisecond as the
previous write leaves `updatedAt` unchanged. -/
theorem C4_update_existing_item (ev : Event) (st : Store) (w : World)
    (fs : List (String × JVal)) (txt chk : JVal)
    (ps : List (String × String)) (tid : String) (it : Item)
    (hb : json_loads ev.body = Except.ok (JVal.obj fs))
    (ht : fs.lookup "text" = some txt)
    (hc : fs.lookup "checked" = some chk)
    (hp : ev.pathParameters = some ps)
    (hid : ps.lookup "id" = some tid)
    (_hex : st.lookup tid = some it) :
    ∃ r st1 w1 attrs, update ev st w = Except.ok (r, st1, w1) ∧
      r.statusCode = 200 ∧
      st1.lookup tid = some attrs ∧
      attrs.lookup "text" = some txt ∧
      attrs.lookup "checked" = some chk ∧
      attrs.lookup "updatedAt" =
        some (JVal.n (py_int (w.now * 1000))) ∧
      (∀ v : ℚ, numVal ((it.lookup "updatedAt").getD JVal.null) = some v →
        v < (py_int (w.now * 1000) : ℚ) →
        ∃ u : ℚ,
          numVal ((attrs.lookup "updatedAt").getD JVal.null) = some u ∧
          v < u) := by
  obtain ⟨bs, hbs, hup⟩ := update_spec ev st w fs txt chk ps tid hb ht hc
    hp hid
  refine ⟨_, _, _,
    (update_item st tid txt chk (JVal.n (py_int (w.now * 1000)))).1,
    hup, rfl, lookup_update_item st tid _ _ _, update_item_text _ _ _ _ _,
    update_item_checked _ _ _ _ _, update_item_updatedAt _ _ _ _ _,
    ?_⟩
  intro v hv hlt
  refine ⟨(py_int (w.now * 1000) : ℚ), ?_, hlt⟩
  rw [update_item_updatedAt]
  rfl

/-- Witness for the amended C4 at a concrete request on an existing
item. -/
theorem C4_witness :
    json_loads evOkW.body = Except.ok
      (JVal.obj [("text", JVal.s "hi"), ("checked", JVal.b true)]) ∧
    List.lookup "text" [("text", JVal.s "hi"), ("checked", JVal.b true)] =
      some (JVal.s "hi") ∧
    List.lookup "checked"
      [("text", JVal.s "hi"), ("checked", JVal.b true)] =
      some (JVal.b true) ∧
    evOkW.pathParameters = some [("id", "X")] ∧
    List.lookup "id" [("id", "X")] = some "X" ∧
    stW.lookup "X" = some [("id", JVal.s "X"), ("text", JVal.s "old"),
      ("checked", JVal.b false), ("updatedAt", JVal.n 3)] ∧
    (∃ r st1 w1 attrs, update evOkW stW wW = Except.ok (r, st1, w1) ∧
      r.statusCode = 200 ∧
      st1.lookup "X" = some attrs ∧
      attrs.lookup "text" = some (JVal.s "hi") ∧
      attrs.lookup "checked" = some (JVal.b true) ∧
      attrs.lookup "updatedAt" =
        some (JVal.n (py_int (wW.now * 1000))) ∧
      (∀ v : ℚ,
        numVal ((List.lookup "updatedAt"
          [("id", JVal.s "X"), ("text", JVal.s "old"),
           ("checked", JVal.b false), ("updatedAt", JVal.n 3)]).getD
            JVal.null) = some v →
        v < (py_int (wW.now * 1000) : ℚ) →
        ∃ u : ℚ,
          numVal ((attrs.lookup "updatedAt").getD JVal.null) = some u ∧
          v < u)) :=
  ⟨rfl, rfl, rfl, rfl, rfl, rfl,
   C4_update_existing_item evOkW stW wW _ _ _ _ _ _
     rfl rfl rfl rfl rfl rfl⟩

/-- Counterexample to C4 as stated: an update arriving in the same
millisecond as the stored `updatedAt` value succeeds with statusCode 200
but leaves `updatedAt` numerically equal (5 before and 5 after), so it
is not strictly greater than before the call. -/
theorem C4_counterexample_same_millisecond :
    ∃ r st1 w1 attrs,
      cexStore.lookup "X" = some [("id", JVal.s "X"), ("text", JVal.s "a"),
        ("checked", JVal.b false), ("updatedAt", JVal.n 5)] ∧
      update cexEvent cexStore cexWorld = Except.ok (r, st1, w1) ∧
      r.statusCode = 200 ∧
      st1.lookup "X" = some attrs ∧
      attrs.lookup "updatedAt" =
        some (JVal.n (py_int (cexWorld.now * 1000))) ∧
      py_int (cexWorld.now * 1000) = 5 ∧
      ¬ ((5 : ℚ) < 5) := by
  refine ⟨_, _, _, _, rfl, rfl, rfl, rfl, rfl,
    by norm_num [py_int, cexWorld], by norm_num⟩

/-- C5: every successful create stores `createdAt` and `updatedAt` with
the identical value, the current wall-clock time in seconds rendered as
a string. -/
theorem C5_create_identical_timestamps (ev : Event) (st : Store)
    (w : World) (fs : List (String × JVal)) (txt : JVal)
    (hb : json_loads ev.body = Except.ok (JVal.obj fs))
    (ht : fs.lookup "text" = some txt)
    (hd : decFree txt = true) :
    ∃ r st1 w1 uid it, create ev st w = Except.ok (r, st1, w1) ∧
      st1 = putStore st uid it ∧
      it.lookup "createdAt" = some (JVal.s (ratStr w.now)) ∧
      it.lookup "updatedAt" = some (JVal.s (ratStr w.now)) := by
  obtain ⟨bs, hbs, hcr⟩ := create_spec ev st w fs txt hb ht hd
  exact ⟨_, _, _, uuidRender w.uuidCtr,
    createItem (uuidRender w.uuidCtr) txt (ratStr w.now),
    hcr, rfl, rfl, rfl⟩

/-- Witness for C5 at a concrete request. -/
theorem C5_witness :
    json_loads evOkW.body = Except.ok
      (JVal.obj [("text", JVal.s "hi"), ("checked", JVal.b true)]) ∧
    List.lookup "text" [("text", JVal.s "hi"), ("checked", JVal.b true)] =
      some (JVal.s "hi") ∧
    decFree (JVal.s "hi") = true ∧
    (∃ r st1 w1 uid it, create evOkW [] wW = Except.ok (r, st1, w1) ∧
      st1 = putStore [] uid it ∧
      it.lookup "createdAt" = some (JVal.s (ratStr wW.now)) ∧
      it.lookup "updatedAt" = some (JVal.s (ratStr wW.now))) :=
  ⟨rfl, rfl, rfl,
   C5_create_identical_timestamps evOkW [] wW _ _ rfl rfl rfl⟩

/-- C6: every successful update writes `updatedAt` as the numeric current
wall-clock time in milliseconds (truncated to an integer), and the
response body is the serialization of the full post-update attribute
set, its store numerics (Decimals) re-encoded into plain JSON
numbers. -/
theorem C6_update_ms_timestamp_full_body (ev : Event) (st : Store)
    (w : World) (fs : List (String × JVal)) (txt chk : JVal)
    (ps : List (String × String)) (tid : String)
    (hb : json_loads ev.body = Except.ok (JVal.obj fs))
    (ht : fs.lookup "text" = some txt)
    (hc : fs.lookup "checked" = some chk)
    (hp : ev.pathParameters = some ps)
    (hid : ps.lookup "id" = some tid) :
    ∃ r st1 w1 attrs, update ev st w = Except.ok (r, st1, w1) ∧
      st1.lookup tid = some attrs ∧
      attrs.lookup "updatedAt" =
        some (JVal.n (py_int (w.now * 1000))) ∧
      json_dumps_decimal (numsToDec (JVal.obj attrs)) =
        Except.ok r.body := by
  obtain ⟨bs, hbs, hup⟩ := update_spec ev st w fs txt chk ps tid hb ht hc
    hp hid
  exact ⟨_, _, _,
    (update_item st tid txt chk (JVal.n (py_int (w.now * 1000)))).1,
    hup, lookup_update_item st tid _ _ _,
    update_item_updatedAt _ _ _ _ _, hbs⟩

/-- Witness for C6 at a concrete request. -/
theorem C6_witness :
    json_loads evOkW.body = Except.ok
      (JVal.obj [("text", JVal.s "hi"), ("checked", JVal.b true)]) ∧
    List.lookup "text" [("text", JVal.s "hi"), ("checked", JVal.b true)] =
      some (JVal.s "hi") ∧
    List.lookup "checked"
      [("text", JVal.s "hi"), ("checked", JVal.b true)] =
      some (JVal.b true) ∧
    evOkW.pathParameters = some [("id", "X")] ∧
    List.lookup "id" [("id", "X")] = some "X" ∧
    (∃ r st1 w1 attrs, update evOkW stW wW = Except.ok (r, st1, w1) ∧
      st1.lookup "X" = some attrs ∧
      attrs.lookup "updatedAt" =
        some (JVal.n (py_int (wW.now * 1000))) ∧
      json_dumps_decimal (numsToDec (JVal.obj attrs)) =
        Except.ok r.body) :=
  ⟨rfl, rfl, rfl, rfl, rfl,
   C6_update_ms_timestamp_full_body evOkW stW wW _ _ _ _ _
     rfl rfl rfl rfl rfl⟩

/-- C7: two consecutive create invocations with the identical request
create two distinct items whose generated `id` values differ. -/
theorem C7_create_twice_distinct_ids (ev : Event) (st : Store) (w : World)
    (fs : List (String × JVal)) (txt : JVal)
    (hb : json_loads ev.body = Except.ok (JVal.obj fs))
    (ht : fs.lookup "text" = some txt)
    (hd : decFree txt = true) :
    ∃ r1 st1 w1 r2 st2 w2 id1 id2 it1 it2,
      create ev st w = Except.ok (r1, st1, w1) ∧
      create ev st1 w1 = Except.ok (r2, st2, w2) ∧
      id1 ≠ id2 ∧
      st2.lookup id1 = some it1 ∧
      st2.lookup id2 = some it2 ∧
      it1.lookup "id" = some (JVal.s id1) ∧
      it2.lookup "id" = some (JVal.s id2) := by
  obtain ⟨bs1, hbs1, hcr1⟩ := create_spec ev st w fs txt hb ht hd
  obtain ⟨bs2, hbs2, hcr2⟩ := create_spec ev
    (putStore st (uuidRender w.uuidCtr)
      (createItem (uuidRender w.uuidCtr) txt (ratStr w.now)))
    { w with uuidCtr := w.uuidCtr + 1 } fs txt hb ht hd
  have hne : uuidRender w.uuidCtr ≠ uuidRender (w.uuidCtr + 1) := by
    intro h
    have h2 := uuidRender_inj h
    omega
  refine ⟨_, _, _, _, _, _, uuidRender w.uuidCtr,
    uuidRender (w.uuidCtr + 1),
    createItem (uuidRender w.uuidCtr) txt (ratStr w.now),
    createItem (uuidRender (w.uuidCtr + 1)) txt (ratStr w.now),
    hcr1, hcr2, hne, ?_, ?_, rfl, rfl⟩
  · rw [lookup_putStore_ne _ _ hne, lookup_putStore_self]
  · exact lookup_putStore_self _ _ _

/-- Witness for C7 at a concrete request. -/
theorem C7_witness :
    json_loads evOkW.body = Except.ok
      (JVal.obj [("text", JVal.s "hi"), ("checked", JVal.b true)]) ∧
    List.lookup "text" [("text", JVal.s "hi"), ("checked", JVal.b true)] =
      some (JVal.s "hi") ∧
    decFree (JVal.s "hi") = true ∧
    (∃ r1 st1 w1 r2 st2 w2 id1 id2 it1 it2,
      create evOkW [] wW = Except.ok (r1, st1, w1) ∧
      create evOkW st1 w1 = Except.ok (r2, st2, w2) ∧
      id1 ≠ id2 ∧
      st2.lookup id1 = some it1 ∧
      st2.lookup id2 = some it2 ∧
      it1.lookup "id" = some (JVal.s id1) ∧
      it2.lookup "id" = some (JVal.s id2)) :=
  ⟨rfl, rfl, rfl,
   C7_create_twice_distinct_ids evOkW [] wW _ _ rfl rfl rfl⟩

/-- C10: every successful create writes an item consisting of exactly the
five fields id, text, checked, createdAt, updatedAt — any additional
body fields are dropped — and the response body is the serialization of
exactly the stored item. -/
theorem C10_create_exact_five_fields (ev : Event) (st : Store) (w : World)
    (fs : List (String × JVal)) (txt : JVal)
    (hb : json_loads ev.body = Except.ok (JVal.obj fs))
    (ht : fs.lookup "text" = some txt)
    (hd : decFree txt = true) :
    ∃ r st1 w1 uid it, create ev st w = Except.ok (r, st1, w1) ∧
      st1 = putStore st uid it ∧
      it.map Prod.fst = ["id", "text", "checked", "createdAt",
        "updatedAt"] ∧
      it.lookup "id" = some (JVal.s uid) ∧
      it.lookup "text" = some txt ∧
      json_dumps (JVal.obj it) = Except.ok r.body := by
  obtain ⟨bs, hbs, hcr⟩ := create_spec ev st w fs txt hb ht hd
  exact ⟨_, _, _, uuidRender w.uuidCtr,
    createItem (uuidRender w.uuidCtr) txt (ratStr w.now),
    hcr, rfl, rfl, rfl, rfl, hbs⟩

/-- Witness for C10 at a concrete request carrying an extra field. -/
theorem C10_witness :
    json_loads evOkW.body = Except.ok
      (JVal.obj [("text", JVal.s "hi"), ("checked", JVal.b true)]) ∧
    List.lookup "text" [("text", JVal.s "hi"), ("checked", JVal.b true)] =
      some (JVal.s "hi") ∧
    decFree (JVal.s "hi") = true ∧
    (∃ r st1 w1 uid it, create evOkW [] wW = Except.ok (r, st1, w1) ∧
      st1 = putStore [] uid it ∧
      it.map Prod.fst = ["id", "text", "checked", "createdAt",
        "updatedAt"] ∧
      it.lookup "id" = some (JVal.s uid) ∧
      it.lookup "text" = some (JVal.s "hi") ∧
      json_dumps (JVal.obj it) = Except.ok r.body) :=
  ⟨rfl, rfl, rfl,
   C10_create_exact_five_fields evOkW [] wW _ _ rfl rfl rfl⟩

/-- C8: every invocation of either handler that returns (rather than
raising) answers statusCode 200 with a body produced by JSON
serialization of the result object; no non-200 status is ever
returned. -/
theorem C8_returned_responses_are_200 (ev : Event) (st : Store)
    (w : World) (r : Response) (st1 : Store) (w1 : World) :
    (create ev st w = Except.ok (r, st1, w1) →
      r.statusCode = 200 ∧ ∃ j, json_dumps j = Except.ok r.body) ∧
    (update ev st w = Except.ok (r, st1, w1) →
      r.statusCode = 200 ∧ ∃ j, json_dumps j = Except.ok r.body) := by
  constructor
  · intro h
    unfold create at h
    try simp only [] at h
    repeat' split at h
    all_goals try exact Except.noConfusion h
    all_goals rename_i heq
    all_goals simp only [Except.ok.injEq, Prod.mk.injEq] at h
    all_goals obtain ⟨hr, hst, hw⟩ := h
    all_goals subst hr
    all_goals exact ⟨rfl, _, heq⟩
  · intro h
    unfold update at h
    try simp only [] at h
    repeat' split at h
    all_goals try exact Except.noConfusion h
    all_goals rename_i heq
    all_goals simp only [Except.ok.injEq, Prod.mk.injEq] at h
    all_goals obtain ⟨hr, hst, hw⟩ := h
    all_goals subst hr
    all_goals exact ⟨rfl, _, by simpa [json_dumps_decimal] using heq⟩

/-- Witness for C8: both handlers run on concrete inputs; the returned
responses carry status 200 and serialized bodies. -/
theorem C8_witness :
    (createOutW.1.statusCode = 200 ∧
      ∃ j, json_dumps j = Except.ok createOutW.1.body) ∧
    (updateOutW.1.statusCode = 200 ∧
      ∃ j, json_dumps j = Except.ok updateOutW.1.body) :=
  ⟨(C8_returned_responses_are_200 evOkW [] wW createOutW.1 createOutW.2.1
      createOutW.2.2).1 rfl,
   (C8_returned_responses_are_200 evOkW stW wW updateOutW.1 updateOutW.2.1
      updateOutW.2.2).2 rfl⟩

/-- C9: for every request whose body string is not a valid serialized
JSON object — it fails to parse, or parses to a non-object — each
handler raises before reaching the store write, so no store write occurs
(no updated state is produced). -/
theorem C9_nonobject_body_raises (ev : Event) (st : Store) (w : World)
    (hb : ev.body = BodyStr.malformed ∨
      ∃ v, ev.body = BodyStr.wellFormed v ∧ ∀ fs, v ≠ JVal.obj fs) :
    (∃ e, create ev st w = Except.error e) ∧
    (∃ e, update ev st w = Except.error e) := by
  rcases hb with hb | ⟨v, hb, hno⟩
  · constructor
    · exact ⟨PyErr.valueError, by simp [create, json_loads, hb]⟩
    · exact ⟨PyErr.valueError, by simp [update, json_loads, hb]⟩
  · cases v with
    | obj fs => exact absurd rfl (hno fs)
    | s t =>
      constructor
      · cases hsc : strContains t "text"
        · exact ⟨PyErr.exception "Couldn\x27t create the todo item.",
            by simp [create, json_loads, hb, py_contains, hsc]⟩
        · exact ⟨PyErr.typeError,
            by simp [create, json_loads, hb, py_contains, hsc, py_getItem]⟩
      · cases hsc : strContains t "text"
        · exact ⟨PyErr.exception "Couldn\x27t update the todo item.",
            by simp [update, json_loads, hb, py_contains, hsc]⟩
        · cases hsc2 : strContains t "checked"
          · exact ⟨PyErr.exception "Couldn\x27t update the todo item.",
              by simp [update, json_loads, hb, py_contains, hsc, hsc2]⟩
          · cases hp : ev.pathParameters with
            | none => exact ⟨PyErr.typeError,
                by simp [update, json_loads, hb, py_contains, hsc, hsc2,
                  hp]⟩
            | some ps =>
              cases hlid : ps.lookup "id" with
              | none => exact ⟨PyErr.keyError "id",
                  by simp [update, json_loads, hb, py_contains, hsc, hsc2,
                    hp, hlid]⟩
              | some tid => exact ⟨PyErr.typeError,
                  by simp [update, json_loads, hb, py_contains, hsc, hsc2,
                    hp, hlid, py_getItem]⟩
    | arr vs =>
      constructor
      · cases hsc : vs.any (fun x => x == JVal.s "text")
        · exact ⟨PyErr.exception "Couldn\x27t create the todo item.",
            by simp [create, json_loads, hb, py_contains, hsc]⟩
        · exact ⟨PyErr.typeError,
            by simp [create, json_loads, hb, py_contains, hsc, py_getItem]⟩
      · cases hsc : vs.any (fun x => x == JVal.s "text")
        · exact ⟨PyErr.exception "Couldn\x27t update the todo item.",
            by simp [update, json_loads, hb, py_contains, hsc]⟩
        · cases hsc2 : vs.any (fun x => x == JVal.s "checked")
          · exact ⟨PyErr.exception "Couldn\x27t update the todo item.",
              by simp [update, json_loads, hb, py_contains, hsc, hsc2]⟩
          · cases hp : ev.pathParameters with
            | none => exact ⟨PyErr.typeError,
                by simp [update, json_loads, hb, py_contains, hsc, hsc2,
                  hp]⟩
            | some ps =>
              cases hlid : ps.lookup "id" with
              | none => exact ⟨PyErr.keyError "id",
                  by simp [update, json_loads, hb, py_contains, hsc, hsc2,
                    hp, hlid]⟩
              | some tid => exact ⟨PyErr.typeError,
                  by simp [update, json_loads, hb, py_contains, hsc, hsc2,
                    hp, hlid, py_getItem]⟩
    | n q =>
      exact ⟨⟨PyErr.typeError, by simp [create, json_loads, hb,
          py_contains]⟩,
        ⟨PyErr.typeError, by simp [update, json_loads, hb, py_contains]⟩⟩
    | dec q =>
      exact ⟨⟨PyErr.typeError, by simp [create, json_loads, hb,
          py_contains]⟩,
        ⟨PyErr.typeError, by simp [update, json_loads, hb, py_contains]⟩⟩
    | b bv =>
      exact ⟨⟨PyErr.typeError, by simp [create, json_loads, hb,
          py_contains]⟩,
        ⟨PyErr.typeError, by simp [update, json_loads, hb, py_contains]⟩⟩
    | null =>
      exact ⟨⟨PyErr.typeError, by simp [create, json_loads, hb,
          py_contains]⟩,
        ⟨PyErr.typeError, by simp [update, json_loads, hb, py_contains]⟩⟩

/-- Witness for C9 at a concrete request whose body is a JSON string,
not an object. -/
theorem C9_witness :
    (evStrW.body = BodyStr.malformed ∨
      ∃ v, evStrW.body = BodyStr.wellFormed v ∧ ∀ fs, v ≠ JVal.obj fs) ∧
    ((∃ e, create evStrW [] wW = Except.error e) ∧
     (∃ e, update evStrW [] wW = Except.error e)) :=
  ⟨Or.inr ⟨JVal.s "no json object", rfl, fun fs h => by cases h⟩,
   C9_nonobject_body_raises evStrW [] wW
     (Or.inr ⟨JVal.s "no json object", rfl, fun fs h => by cases h⟩)⟩
